import Mathlib

/-!
Verification development for the myopentrip/fetch-client HTTP client wrapper.

The definitions below are a shallow embedding of the TypeScript source:
FetchClient (src/fetch-client.ts), InterceptorManager
(src/managers/interceptor-manager.ts), RetryManager and AuthManager.
JavaScript optional number fields are modelled as Option Nat, and JavaScript
truthiness of a number (0, NaN and undefined are falsy) is made explicit.
-/

/-- Embedding of the FetchError interface: message, optional numeric status
code and optional status text.  The transport cause is irrelevant to the
properties below and is omitted. -/
structure FetchError where
  message : String
  status : Option Nat
  statusText : Option String
deriving DecidableEq, Repr

/-- JavaScript truthiness of an optional number: undefined and 0 are falsy. -/
def jsTruthyNum : Option Nat → Bool
  | none => false
  | some n => n != 0

/-- JavaScript expression (x || d) for an optional number x: the default d is
used when x is undefined or 0. -/
def jsNumOr (x : Option Nat) (d : Nat) : Nat :=
  match x with
  | none => d
  | some n => if n = 0 then d else n

/-- JavaScript comparison (x >= n) where x is an optional number: comparison
with undefined is false. -/
def jsGE (x : Option Nat) (n : Nat) : Bool :=
  match x with
  | none => false
  | some v => n ≤ v

/-- JavaScript comparison (x < n) where x is an optional number: comparison
with undefined is false. -/
def jsLT (x : Option Nat) (n : Nat) : Bool :=
  match x with
  | none => false
  | some v => v < n

/-- Embedding of RetryManager.defaultRetryCondition:
return !error.status || (error.status >= 500 && error.status < 600). -/
def defaultRetryCondition (error : FetchError) (_attempt : Nat) : Bool :=
  !jsTruthyNum error.status || (jsGE error.status 500 && jsLT error.status 600)

/-- Embedding of the RetryConfig record.  Delays are rationals since the
source computes with JavaScript floating point arithmetic on real-valued
delays; retryCondition is optional exactly as in the RetryConfig interface. -/
structure RetryConfig where
  maxRetries : Nat
  baseDelay : ℚ
  maxDelay : ℚ
  backoffFactor : ℚ
  jitter : Bool
  retryCondition : Option (FetchError → Nat → Bool)

/-- Embedding of RetryManager.shouldRetry:
attempt < maxRetries && !!retryCondition && retryCondition(error, attempt). -/
def shouldRetry (cfg : RetryConfig) (error : FetchError) (attempt : Nat) : Bool :=
  decide (attempt < cfg.maxRetries) &&
    cfg.retryCondition.isSome &&
    (match cfg.retryCondition with
     | some cond => cond error attempt
     | none => false)

/-- Embedding of RetryManager.calculateRetryDelay.  The call to Math.random()
is modelled by the parameter rand, a draw in the interval from 0 inclusive to
1 exclusive.  delay = baseDelay * backoffFactor ^ attempt; when jitter is on,
delay += (rand - 0.5) * 2 * (delay * 0.1); the result is min delay maxDelay. -/
def calculateRetryDelay (cfg : RetryConfig) (attempt : Nat) (rand : ℚ) : ℚ :=
  let delay := cfg.baseDelay * cfg.backoffFactor ^ attempt
  let delay :=
    if cfg.jitter then delay + (rand - 1/2) * 2 * (delay * (1/10)) else delay
  min delay cfg.maxDelay

/-- Input to the RetryManager constructor: a Partial RetryConfig, every field
optional. -/
structure RetryManagerInput where
  maxRetries : Option Nat
  baseDelay : Option Nat
  maxDelay : Option Nat
  backoffFactor : Option Nat
  jitter : Option Bool
  retryCondition : Option (FetchError → Nat → Bool)

/-- Embedding of the RetryManager constructor: numeric defaults are chosen by
the JavaScript || operator (falsiness), jitter defaults via !== false, and
retryCondition falls back to defaultRetryCondition. -/
def mkRetryManagerConfig (c : RetryManagerInput) : RetryConfig :=
  { maxRetries := jsNumOr c.maxRetries 0
    baseDelay := (jsNumOr c.baseDelay 1000 : Nat)
    maxDelay := (jsNumOr c.maxDelay 30000 : Nat)
    backoffFactor := (jsNumOr c.backoffFactor 2 : Nat)
    jitter := c.jitter != some false
    retryCondition := some (c.retryCondition.getD defaultRetryCondition) }

/-- Input to the FetchClient constructor: FetchClientConfig, every field
optional.  Headers and the auth sub-configuration are not needed by the
properties below. -/
structure FetchClientConfigInput where
  baseURL : Option String
  timeout : Option Nat
  retries : Option Nat
  retryDelay : Option Nat
  enableInterceptors : Option Bool
  debug : Option Bool

/-- The resolved Required FetchClientConfig stored on the client. -/
structure FetchClientConfigResolved where
  baseURL : String
  timeout : Nat
  retries : Nat
  retryDelay : Nat
  enableInterceptors : Bool
  debug : Bool
deriving DecidableEq, Repr

/-- Embedding of the FetchClient constructor resolution of this.config:
baseURL: config.baseURL || '', timeout: config.timeout || 10000,
retries: config.retries || 0, retryDelay: config.retryDelay || 1000,
enableInterceptors: config.enableInterceptors !== false,
debug: config.debug || false. -/
def mkFetchClientConfig (c : FetchClientConfigInput) : FetchClientConfigResolved :=
  { baseURL := match c.baseURL with
      | none => ""
      | some s => if s = "" then "" else s
    timeout := jsNumOr c.timeout 10000
    retries := jsNumOr c.retries 0
    retryDelay := jsNumOr c.retryDelay 1000
    enableInterceptors := c.enableInterceptors != some false
    debug := match c.debug with
      | none => false
      | some b => b }

/-- Embedding of the FetchClient constructor resolution of this.retryConfig:
maxRetries and baseDelay come from the resolved client config, maxDelay is
30000, backoffFactor 2, jitter true, and the default retryCondition retries
on network errors or 5xx status codes. -/
def mkFetchClientRetryConfig (resolved : FetchClientConfigResolved) : RetryConfig :=
  { maxRetries := resolved.retries
    baseDelay := (resolved.retryDelay : Nat)
    maxDelay := (30000 : Nat)
    backoffFactor := (2 : Nat)
    jitter := true
    retryCondition := some (fun error _attempt =>
      !jsTruthyNum error.status || (jsGE error.status 500 && jsLT error.status 600)) }

/-- Outcome of running RetryManager.executeWithRetry: the settled result, the
number of times the wrapped operation was invoked, and the list of sleep
durations in order. -/
structure RetryOutcome (T : Type) where
  result : Except FetchError T
  calls : Nat
  sleeps : List ℚ
deriving Repr

/-- The fallback error thrown when the loop exits with no recorded error:
new Error('Request failed with unknown error'). -/
def unknownRequestError : FetchError :=
  { message := "Request failed with unknown error", status := none, statusText := none }

/-- Embedding of the for loop inside RetryManager.executeWithRetry.  The
wrapped async operation is modelled by ops, giving the outcome of the
attempt with each index; rands supplies the Math.random() draw consumed by
calculateRetryDelay at each attempt.  fuel counts the remaining permitted
iterations (initially maxRetries + 1), and the third argument carries
lastError. -/
def runRetryLoop {T : Type} (cfg : RetryConfig) (ops : Nat → Except FetchError T)
    (rands : Nat → ℚ) : Nat → Nat → Option FetchError → RetryOutcome T
  | _, 0, last => ⟨.error (last.getD unknownRequestError), 0, []⟩
  | attempt, fuel+1, _last =>
    match ops attempt with
    | .ok v => ⟨.ok v, 1, []⟩
    | .error e =>
      if shouldRetry cfg e attempt then
        let d := calculateRetryDelay cfg attempt (rands attempt)
        let rest := runRetryLoop cfg ops rands (attempt+1) fuel (some e)
        ⟨rest.result, rest.calls + 1, d :: rest.sleeps⟩
      else
        ⟨.error e, 1, []⟩

/-- Embedding of RetryManager.executeWithRetry: run the loop from attempt 0
with maxRetries + 1 permitted iterations and no recorded error. -/
def executeWithRetry {T : Type} (cfg : RetryConfig) (ops : Nat → Except FetchError T)
    (rands : Nat → ℚ) : RetryOutcome T :=
  runRetryLoop cfg ops rands 0 (cfg.maxRetries + 1) none

/-- Registered interceptor functions are distinguished by reference identity
in the source (Array.indexOf).  References are modelled as natural numbers;
the same function registered twice appears as the same number twice. -/
abbrev InterceptorList := List Nat

/-- Embedding of Array.prototype.indexOf restricted to found or not found:
the index of the first occurrence, or none for the JavaScript result -1. -/
def indexOfRef : List Nat → Nat → Option Nat
  | [], _ => none
  | x :: xs, r => if x = r then some 0 else (indexOfRef xs r).map (· + 1)

/-- Embedding of the de-registration closure returned by
addRequestInterceptor, addResponseInterceptor and addErrorInterceptor:
const index = list.indexOf(interceptor); if (index > -1) list.splice(index, 1).
splice(index, 1) removes the single element at that index. -/
def handleDeregister (l : List Nat) (r : Nat) : List Nat :=
  match indexOfRef l r with
  | some i => l.take i ++ l.drop (i + 1)
  | none => l

/-- Embedding of the registration side of addRequestInterceptor and friends:
Array.prototype.push appends. -/
def addInterceptorRef (l : List Nat) (r : Nat) : List Nat :=
  l ++ [r]

/-- An error interceptor either transforms the error record or itself fails
(throws or rejects) with some thrown value, summarized as a string. -/
abbrev ErrorInterceptorFn := FetchError → Except String FetchError

/-- Embedding of the loop body of applyErrorInterceptors (both the
FetchClient and the InterceptorManager copy): modifiedError is threaded
through the chain; when an interceptor fails, the whole call returns the
original error that was passed in. -/
def applyErrorInterceptorsGo (original : FetchError) :
    List ErrorInterceptorFn → FetchError → FetchError
  | [], modified => modified
  | f :: rest, modified =>
    match f modified with
    | .ok m => applyErrorInterceptorsGo original rest m
    | .error _ => original

/-- Embedding of applyErrorInterceptors: identity when interceptors are
disabled; otherwise the loop starts from a clone of the error (value-equal
to the error itself in this embedding). -/
def applyErrorInterceptors (enabled : Bool) (chain : List ErrorInterceptorFn)
    (error : FetchError) : FetchError :=
  if enabled then applyErrorInterceptorsGo error chain error else error

/-- Specification version of the error-interceptor chain, written from the
spec words for comparison with the source embedding: when an interceptor
fails, the chain continues with the error record as it stood before that
interceptor. -/
def specApplyErrorInterceptors : List ErrorInterceptorFn → FetchError → FetchError
  | [], m => m
  | f :: rest, m =>
    match f m with
    | .ok m2 => specApplyErrorInterceptors rest m2
    | .error _ => specApplyErrorInterceptors rest m

/-- Sequential fold of an interceptor chain that stops at the first failing
interceptor, used to characterize the source behaviour of
applyErrorInterceptors. -/
def chainFold : List ErrorInterceptorFn → FetchError → Except String FetchError
  | [], m => .ok m
  | f :: rest, m =>
    match f m with
    | .ok m2 => chainFold rest m2
    | .error s => .error s

/-- Observable events of one FetchClient.executeRequest call, in order. -/
inductive ReqEvent
  | attemptMade (i : Nat)
  | slept (d : ℚ)
  | responseInterceptorsRan
  | errorInterceptorsRan
deriving DecidableEq, Repr

/-- Embedding of the inline retry check in FetchClient.executeRequest:
attempt < retries && this.retryConfig.retryCondition &&
this.retryConfig.retryCondition(fetchError, attempt).  retries is the
per-request value destructured from the intercepted config. -/
def clientShouldRetry (cfg : RetryConfig) (retries : Nat) (error : FetchError)
    (attempt : Nat) : Bool :=
  decide (attempt < retries) &&
    cfg.retryCondition.isSome &&
    (match cfg.retryCondition with
     | some cond => cond error attempt
     | none => false)

/-- Embedding of the for loop of FetchClient.executeRequest.  ops models the
fetch call plus status check and body decoding of each attempt; respChain
models applyResponseInterceptors, which runs inside the try block and may
itself throw, feeding the catch block.  The internal error value carries
lastError; error none corresponds to leaving the loop with lastError still
undefined. -/
def execRequestAttempts {R : Type} (cfg : RetryConfig) (retries : Nat)
    (ops : Nat → Except FetchError R) (respChain : R → Except FetchError R)
    (rands : Nat → ℚ) : Nat → Nat → Option FetchError →
    Except (Option FetchError) R × List ReqEvent
  | _, 0, last => (.error last, [])
  | attempt, fuel+1, _last =>
    match ops attempt with
    | .ok v =>
      match respChain v with
      | .ok v2 => (.ok v2, [.attemptMade attempt, .responseInterceptorsRan])
      | .error e =>
        if clientShouldRetry cfg retries e attempt then
          let d := calculateRetryDelay cfg attempt (rands attempt)
          let rest := execRequestAttempts cfg retries ops respChain rands
            (attempt+1) fuel (some e)
          (rest.1, .attemptMade attempt :: .responseInterceptorsRan :: .slept d :: rest.2)
        else
          (.error (some e), [.attemptMade attempt, .responseInterceptorsRan])
    | .error e =>
      if clientShouldRetry cfg retries e attempt then
        let d := calculateRetryDelay cfg attempt (rands attempt)
        let rest := execRequestAttempts cfg retries ops respChain rands
          (attempt+1) fuel (some e)
        (rest.1, .attemptMade attempt :: .slept d :: rest.2)
      else
        (.error (some e), [.attemptMade attempt])

/-- Embedding of FetchClient.executeRequest from the top of its retry loop:
run the attempts, then, only if the loop ended with a recorded lastError,
run the error through applyErrorInterceptors once and settle with the
processed error; a success settles with the response interceptors already
applied inside the loop. -/
def executeRequest {R : Type} (enabled : Bool) (errChain : List ErrorInterceptorFn)
    (cfg : RetryConfig) (retries : Nat) (ops : Nat → Except FetchError R)
    (respChain : R → Except FetchError R) (rands : Nat → ℚ) :
    Except FetchError R × List ReqEvent :=
  let run := execRequestAttempts cfg retries ops respChain rands 0 (retries + 1) none
  match run.1 with
  | .ok v => (.ok v, run.2)
  | .error (some e) =>
    (.error (applyErrorInterceptors enabled errChain e), run.2 ++ [.errorInterceptorsRan])
  | .error none => (.error unknownRequestError, run.2)

/-- Embedding of the AuthTokens interface. -/
structure AuthTokensM where
  accessToken : String
  refreshToken : Option String
  expiresIn : Option Nat
  expiresAt : Option Nat
  tokenType : Option String
deriving DecidableEq, Repr

/-- The part of the AuthConfig relevant to the token lifecycle: the refresh
endpoint, the refresh threshold, and whether the lifecycle callbacks are
configured (callback invocations are recorded as events). -/
structure AuthConfigM where
  tokenRefreshUrl : Option String
  refreshThreshold : Option Nat
  hasOnTokenExpired : Bool
  hasOnTokenRefresh : Bool
deriving DecidableEq, Repr

/-- Combined mutable state of an AuthManager: the AuthState record plus the
refreshPromise field of the manager itself.  An in-flight refresh promise is
identified by a number. -/
structure AuthStateM where
  isAuthenticated : Bool
  tokens : Option AuthTokensM
  user : Option String
  isRefreshing : Bool
  lastRefresh : Option Nat
  refreshPromise : Option Nat
deriving DecidableEq, Repr

/-- Observable events of AuthManager operations, in order: the refresh
endpoint being invoked via requestFn, lifecycle callback invocations, and
storage writes/removals. -/
inductive AuthEvent
  | refreshEndpointCalled
  | tokenExpiredCallback
  | tokenRefreshCallback
  | storageSaved
  | storageRemoved
deriving DecidableEq, Repr

/-- Embedding of AuthManager.isTokenExpired: false when there are no tokens
or no expiry; otherwise expiresAt <= now + (threshold || refreshThreshold ||
300) * 1000, with JavaScript falsiness on the threshold chain. -/
def isTokenExpired (cfg : AuthConfigM) (s : AuthStateM) (now : Nat)
    (threshold : Option Nat) : Bool :=
  match s.tokens with
  | none => false
  | some t =>
    match t.expiresAt with
    | none => false
    | some exp =>
      let refreshThreshold := (jsNumOr threshold (jsNumOr cfg.refreshThreshold 300)) * 1000
      decide (exp ≤ now + refreshThreshold)

/-- Embedding of AuthManager.clearTokens: null out tokens, reset
isAuthenticated and user, remove the stored entries. -/
def clearTokensRun (s : AuthStateM) : AuthStateM × List AuthEvent :=
  ({ s with tokens := none, isAuthenticated := false, user := none },
   [AuthEvent.storageRemoved])

/-- Embedding of the expiry computation at the top of AuthManager.setTokens:
if (tokens.expiresIn && !tokens.expiresAt) then
tokens.expiresAt = Date.now() + tokens.expiresIn * 1000, with JavaScript
truthiness on both fields. -/
def withComputedExpiry (tokens : AuthTokensM) (now : Nat) : AuthTokensM :=
  if jsTruthyNum tokens.expiresIn && !jsTruthyNum tokens.expiresAt then
    { tokens with expiresAt := some (now + (tokens.expiresIn.getD 0) * 1000) }
  else
    tokens

/-- Embedding of AuthManager.setTokens: compute the expiry, store the tokens,
flip isAuthenticated, persist to storage. -/
def setTokensRun (s : AuthStateM) (tokens : AuthTokensM) (now : Nat) :
    AuthStateM × List AuthEvent :=
  let t := withComputedExpiry tokens now
  ({ s with tokens := some t, isAuthenticated := true }, [AuthEvent.storageSaved])

/-- Summary of the external refresh endpoint and token extraction: error
means requestFn rejected; ok none means the response carried no extractable
tokens (extractTokensFromResponse returned null); ok (some t) carries the
extracted tokens. -/
abbrev RefreshResponse := Except Unit (Option AuthTokensM)

/-- Embedding of AuthManager.performTokenRefresh run to completion: throw if
no refresh token; set isRefreshing; call requestFn on the refresh URL; on a
rejected call or failed extraction, fire the expired callback, clear the
tokens and rethrow; on success, setTokens, stamp lastRefresh and fire the
refresh callback; in all cases the finally block resets isRefreshing. -/
def performTokenRefresh (cfg : AuthConfigM) (s : AuthStateM)
    (resp : RefreshResponse) (now : Nat) :
    Except String AuthTokensM × AuthStateM × List AuthEvent :=
  match s.tokens >>= (fun t => t.refreshToken) with
  | none => (.error "No refresh token available", s, [])
  | some _ =>
    let s1 := { s with isRefreshing := true }
    match resp with
    | .error _ =>
      let evCb := if cfg.hasOnTokenExpired then [AuthEvent.tokenExpiredCallback] else []
      let cleared := clearTokensRun s1
      (.error "Token refresh request failed", { cleared.1 with isRefreshing := false },
        [AuthEvent.refreshEndpointCalled] ++ evCb ++ cleared.2)
    | .ok none =>
      let evCb := if cfg.hasOnTokenExpired then [AuthEvent.tokenExpiredCallback] else []
      let cleared := clearTokensRun s1
      (.error "Failed to extract tokens from refresh response",
        { cleared.1 with isRefreshing := false },
        [AuthEvent.refreshEndpointCalled] ++ evCb ++ cleared.2)
    | .ok (some newTokens) =>
      let afterSet := setTokensRun s1 newTokens now
      let s2 := { afterSet.1 with lastRefresh := some now }
      let evCb := if cfg.hasOnTokenRefresh then [AuthEvent.tokenRefreshCallback] else []
      (.ok (withComputedExpiry newTokens now), { s2 with isRefreshing := false },
        [AuthEvent.refreshEndpointCalled] ++ afterSet.2 ++ evCb)

/-- Result of one call to AuthManager.refreshTokens in the run-to-completion
model: either a freshly settled refresh, or joining the promise already in
flight (whose identifier is returned). -/
inductive RefreshCallResult
  | fresh (r : Except String AuthTokensM)
  | joined (pid : Nat)
deriving Repr

/-- Embedding of AuthManager.refreshTokens run to completion: throw when the
refresh URL is not configured; return the in-flight promise when one exists;
otherwise store a new promise, run performTokenRefresh, and reset
refreshPromise to null whether it settled with success or failure. -/
def refreshTokens (cfg : AuthConfigM) (s : AuthStateM) (resp : RefreshResponse)
    (now : Nat) : RefreshCallResult × AuthStateM × List AuthEvent :=
  if cfg.tokenRefreshUrl.isNone then
    (.fresh (.error "Token refresh URL not configured"), s, [])
  else
    match s.refreshPromise with
    | some pid => (.joined pid, s, [])
    | none =>
      let run := performTokenRefresh cfg { s with refreshPromise := some 0 } resp now
      (.fresh run.1, { run.2.1 with refreshPromise := none }, run.2.2)

/-- Embedding of AuthManager.handleUnauthorized: a no-op while isRefreshing;
if the token is expired and a refresh token exists, await one refreshTokens
cycle and fire the expired callback if it fails; otherwise fire the expired
callback and clear the tokens.  A joined in-flight refresh (possible only
when refreshPromise is set while isRefreshing is false) is modelled as
awaiting that promise without further effects. -/
def handleUnauthorized (cfg : AuthConfigM) (s : AuthStateM) (resp : RefreshResponse)
    (now : Nat) : AuthStateM × List AuthEvent :=
  if s.isRefreshing then (s, [])
  else
    if isTokenExpired cfg s now none && (s.tokens >>= fun t => t.refreshToken).isSome then
      match refreshTokens cfg s resp now with
      | (.fresh (.ok _), s1, evs) => (s1, evs)
      | (.fresh (.error _), s1, evs) =>
        let evCb := if cfg.hasOnTokenExpired then [AuthEvent.tokenExpiredCallback] else []
        (s1, evs ++ evCb)
      | (.joined _, s1, evs) => (s1, evs)
    else
      let evCb := if cfg.hasOnTokenExpired then [AuthEvent.tokenExpiredCallback] else []
      let cleared := clearTokensRun s
      (cleared.1, evCb ++ cleared.2)

/-- Result of the synchronous segment of one refreshTokens call, up to the
point where the caller suspends: the URL check, the in-flight check, and the
synchronous body of performTokenRefresh up to its await of requestFn. -/
inductive RefreshEntry
  | noUrl
  | joined (pid : Nat)
  | started (pid : Nat)
  | startedNoToken (pid : Nat)
deriving DecidableEq, Repr

/-- Embedding of the synchronous segment of AuthManager.refreshTokens under
the JavaScript event loop: the URL check and refreshPromise check run
atomically with the assignment of the new promise, and the body of
performTokenRefresh runs synchronously through the isRefreshing assignment
and the initiation of the requestFn endpoint call before suspending.  pid
names the promise created by this call. -/
def refreshTokensEntry (cfg : AuthConfigM) (s : AuthStateM) (pid : Nat) :
    RefreshEntry × AuthStateM × List AuthEvent :=
  if cfg.tokenRefreshUrl.isNone then (.noUrl, s, [])
  else
    match s.refreshPromise with
    | some q => (.joined q, s, [])
    | none =>
      match s.tokens >>= (fun t => t.refreshToken) with
      | none => (.startedNoToken pid, { s with refreshPromise := some pid }, [])
      | some _ =>
        (.started pid, { s with refreshPromise := some pid, isRefreshing := true },
          [AuthEvent.refreshEndpointCalled])

/-- Embedding of the continuation of a started refresh once the endpoint
settles: the rest of performTokenRefresh (extraction, setTokens, callbacks,
finally isRefreshing = false) followed by the starting caller resuming in
refreshTokens and resetting refreshPromise to null. -/
def refreshCompletion (cfg : AuthConfigM) (s : AuthStateM) (resp : RefreshResponse)
    (now : Nat) : Except String AuthTokensM × AuthStateM × List AuthEvent :=
  match resp with
  | .error _ =>
    let evCb := if cfg.hasOnTokenExpired then [AuthEvent.tokenExpiredCallback] else []
    let cleared := clearTokensRun s
    (.error "Token refresh request failed",
      { cleared.1 with isRefreshing := false, refreshPromise := none }, evCb ++ cleared.2)
  | .ok none =>
    let evCb := if cfg.hasOnTokenExpired then [AuthEvent.tokenExpiredCallback] else []
    let cleared := clearTokensRun s
    (.error "Failed to extract tokens from refresh response",
      { cleared.1 with isRefreshing := false, refreshPromise := none }, evCb ++ cleared.2)
  | .ok (some newTokens) =>
    let afterSet := setTokensRun s newTokens now
    let s2 := { afterSet.1 with lastRefresh := some now }
    let evCb := if cfg.hasOnTokenRefresh then [AuthEvent.tokenRefreshCallback] else []
    (.ok (withComputedExpiry newTokens now),
      { s2 with isRefreshing := false, refreshPromise := none }, afterSet.2 ++ evCb)

/-- Two concurrent refreshTokens callers under the event loop: caller A runs
its synchronous entry segment, then caller B runs its entry segment, then
the single endpoint call settles and the started refresh completes.  The
returned outcome is the settlement of the promise created by caller A. -/
def twoConcurrentRefresh (cfg : AuthConfigM) (s0 : AuthStateM) (resp : RefreshResponse)
    (now : Nat) :
    RefreshEntry × RefreshEntry × Except String AuthTokensM × AuthStateM × List AuthEvent :=
  let a := refreshTokensEntry cfg s0 0
  let b := refreshTokensEntry cfg a.2.1 1
  let c := refreshCompletion cfg b.2.1 resp now
  (a.1, b.1, c.1, c.2.1, a.2.2 ++ b.2.2 ++ c.2.2)

/-- Two refreshTokens callers share one underlying operation when the first
starts a promise and the second joins exactly that promise. -/
def joinsSamePromise : RefreshEntry → RefreshEntry → Bool
  | RefreshEntry.started p, RefreshEntry.joined q => p == q
  | _, _ => false

/-- A refresh response that does not deliver tokens: either the endpoint
call rejected or the extraction returned null. -/
def refreshFails : RefreshResponse → Bool
  | .ok (some _) => false
  | .ok none => true
  | .error _ => true

/-- C9: explicit zero values for numeric client options are indistinguishable
from omitting them: a timeout of 0 resolves to the default 10000 ms, a
retryDelay of 0 resolves to the default 1000 ms, and a RetryManager baseDelay
of 0 resolves to the default 1000 ms, because defaults are chosen by
JavaScript falsiness rather than by presence of the field. -/
theorem zeroNumericOptionsFallBackToDefaults
    (c : FetchClientConfigInput) (r : RetryManagerInput)
    (ht : c.timeout = some 0) (hd : c.retryDelay = some 0)
    (hb : r.baseDelay = some 0) :
    (mkFetchClientConfig c).timeout = 10000 ∧
    (mkFetchClientConfig c).retryDelay = 1000 ∧
    (mkFetchClientConfig c).timeout =
      (mkFetchClientConfig { c with timeout := none }).timeout ∧
    (mkRetryManagerConfig r).baseDelay = 1000 := by
  refine ⟨?_, ?_, ?_, ?_⟩ <;>
    simp [mkFetchClientConfig, mkRetryManagerConfig, jsNumOr, ht, hd, hb]

/-- Witness for zeroNumericOptionsFallBackToDefaults at a concrete
configuration carrying explicit zeros. -/
theorem zeroNumericOptionsFallBackToDefaultsWitness :
    (mkFetchClientConfig ⟨none, some 0, none, some 0, none, none⟩).timeout = 10000 ∧
    (mkFetchClientConfig ⟨none, some 0, none, some 0, none, none⟩).retryDelay = 1000 ∧
    (mkFetchClientConfig ⟨none, some 0, none, some 0, none, none⟩).timeout =
      (mkFetchClientConfig { (⟨none, some 0, none, some 0, none, none⟩ : FetchClientConfigInput)
        with timeout := none }).timeout ∧
    (mkRetryManagerConfig ⟨none, some 0, none, none, none, none⟩).baseDelay = 1000 :=
  zeroNumericOptionsFallBackToDefaults
    ⟨none, some 0, none, some 0, none, none⟩
    ⟨none, some 0, none, none, none, none⟩ rfl rfl rfl

/-- C3 counterexample: an error carrying the status code 0 does carry a
status code outside the range from 500 to 599, yet the default retry
condition returns true for it, because the JavaScript expression
!error.status treats a 0 status as absent. -/
theorem defaultRetryConditionTrueAtStatusZero :
    defaultRetryCondition { message := "request failed", status := some 0, statusText := none } 0
      = true ∧
    ({ message := "request failed", status := some 0, statusText := none } : FetchError).status
      = some 0 ∧
    ¬(500 ≤ 0 ∧ (0 : Nat) < 600) := by
  decide

/-- C3 (amended): shouldRetry(error, attempt) is true iff
attempt < maxRetries and the configured retryCondition holds; in particular
it is false whenever attempt is at least maxRetries; and the default
retryCondition returns true exactly when the error carries no status code,
carries status code 0 (treated as absent by JavaScript falsiness), or its
status code lies in the range from 500 to 599. -/
theorem shouldRetryIffAndDefaultCondition (cfg : RetryConfig)
    (cond : FetchError → Nat → Bool) (error : FetchError) (attempt : Nat)
    (h : cfg.retryCondition = some cond) :
    (shouldRetry cfg error attempt = true ↔
      attempt < cfg.maxRetries ∧ cond error attempt = true) ∧
    (cfg.maxRetries ≤ attempt → shouldRetry cfg error attempt = false) ∧
    (defaultRetryCondition error attempt = true ↔
      error.status = none ∨ error.status = some 0 ∨
        ∃ s, error.status = some s ∧ 500 ≤ s ∧ s < 600) := by
  refine ⟨?_, ?_, ?_⟩
  · simp [shouldRetry, h, and_assoc]
  · intro hle
    have hnlt : ¬ attempt < cfg.maxRetries := Nat.not_lt.mpr hle
    simp [shouldRetry, h, hnlt]
  · cases hs : error.status with
    | none => simp [defaultRetryCondition, jsTruthyNum, jsGE, jsLT, hs]
    | some s =>
      simp only [defaultRetryCondition, jsTruthyNum, jsGE, jsLT, hs,
        Bool.or_eq_true, Bool.and_eq_true, Bool.not_eq_true', bne_eq_false_iff_eq,
        decide_eq_true_eq, Option.some.injEq]
      constructor
      · rintro (h0 | ⟨h1, h2⟩)
        · exact Or.inr (Or.inl (by simp [h0]))
        · exact Or.inr (Or.inr ⟨s, rfl, h1, h2⟩)
      · rintro (h0 | h0 | ⟨t, ht, h1, h2⟩)
        · cases h0
        · exact Or.inl h0
        · cases ht
          exact Or.inr ⟨h1, h2⟩

/-- Witness for shouldRetryIffAndDefaultCondition at the default RetryManager
configuration and a concrete 503 error at attempt 0. -/
theorem shouldRetryIffAndDefaultConditionWitness :
    (shouldRetry (mkRetryManagerConfig ⟨some 2, none, none, none, none, none⟩)
        ⟨"HTTP 503", some 503, some "Service Unavailable"⟩ 0 = true ↔
      0 < (mkRetryManagerConfig ⟨some 2, none, none, none, none, none⟩).maxRetries ∧
        defaultRetryCondition ⟨"HTTP 503", some 503, some "Service Unavailable"⟩ 0 = true) ∧
    ((mkRetryManagerConfig ⟨some 2, none, none, none, none, none⟩).maxRetries ≤ 0 →
      shouldRetry (mkRetryManagerConfig ⟨some 2, none, none, none, none, none⟩)
        ⟨"HTTP 503", some 503, some "Service Unavailable"⟩ 0 = false) ∧
    (defaultRetryCondition ⟨"HTTP 503", some 503, some "Service Unavailable"⟩ 0 = true ↔
      (⟨"HTTP 503", some 503, some "Service Unavailable"⟩ : FetchError).status = none ∨
      (⟨"HTTP 503", some 503, some "Service Unavailable"⟩ : FetchError).status = some 0 ∨
        ∃ s, (⟨"HTTP 503", some 503, some "Service Unavailable"⟩ : FetchError).status = some s ∧
          500 ≤ s ∧ s < 600) :=
  shouldRetryIffAndDefaultCondition
    (mkRetryManagerConfig ⟨some 2, none, none, none, none, none⟩)
    defaultRetryCondition
    ⟨"HTTP 503", some 503, some "Service Unavailable"⟩ 0 rfl

/-- C10: while a refresh is in flight (isRefreshing is true),
handleUnauthorized is a complete no-op: the state is returned unchanged and
no event occurs, so no callback fires and the refresh endpoint is not
invoked. -/
theorem handleUnauthorizedNoopWhileRefreshing (cfg : AuthConfigM) (s : AuthStateM)
    (resp : RefreshResponse) (now : Nat) (h : s.isRefreshing = true) :
    handleUnauthorized cfg s resp now = (s, []) := by
  simp [handleUnauthorized, h]

/-- Witness for handleUnauthorizedNoopWhileRefreshing on a concrete
refreshing state holding tokens. -/
theorem handleUnauthorizedNoopWhileRefreshingWitness :
    handleUnauthorized ⟨some "https://api.example.com/refresh", none, true, true⟩
      ⟨true, some ⟨"acc", some "ref", none, some 5, none⟩, none, true, none, some 0⟩
      (.error ()) 1000000 =
      (⟨true, some ⟨"acc", some "ref", none, some 5, none⟩, none, true, none, some 0⟩, []) :=
  handleUnauthorizedNoopWhileRefreshing
    ⟨some "https://api.example.com/refresh", none, true, true⟩
    ⟨true, some ⟨"acc", some "ref", none, some 5, none⟩, none, true, none, some 0⟩
    (.error ()) 1000000 rfl

/-- The de-registration closure is exactly removal of the first occurrence:
handleDeregister coincides with List.erase. -/
theorem handleDeregisterEqErase (r : Nat) :
    ∀ l : List Nat, handleDeregister l r = l.erase r := by
  intro l
  induction l with
  | nil => rfl
  | cons x xs ih =>
    by_cases hx : x = r
    · subst hx
      simp [handleDeregister, indexOfRef]
    · cases hio : indexOfRef xs r with
      | none =>
        have hxs : handleDeregister xs r = xs.erase r := ih
        simp only [handleDeregister, indexOfRef, if_neg hx, hio, Option.map_none'] at hxs ⊢
        rw [List.erase_cons_tail (by simpa using hx)]
        exact congrArg (x :: ·) hxs
      | some i =>
        have hxs : handleDeregister xs r = xs.erase r := ih
        simp only [handleDeregister, indexOfRef, if_neg hx, hio, Option.map_some'] at hxs ⊢
        rw [List.erase_cons_tail (by simpa using hx)]
        simpa [List.take_succ_cons, List.drop_succ_cons] using congrArg (x :: ·) hxs

/-- C8 counterexample: when the same interceptor function is registered
twice, the list holds the same reference twice; calling its
de-registration handle a second time removes the second instance as well,
so the repeated call is not a no-op. -/
theorem handleDeregisterSecondCallNotNoop :
    handleDeregister [7, 7] 7 = [7] ∧
    handleDeregister (handleDeregister [7, 7] 7) 7 = [] ∧
    handleDeregister (handleDeregister [7, 7] 7) 7 ≠ handleDeregister [7, 7] 7 := by
  decide

/-- C8 (amended): each call of a de-registration handle removes the first
occurrence (matched by reference) of the registered function, and is a no-op
when no occurrence remains; consequently, when the function is registered at
most once, calling the handle a second time is a no-op with no error and no
double removal. -/
theorem handleDeregisterRemovalSemantics (r : Nat) :
    (∀ l : List Nat, r ∉ l → handleDeregister l r = l) ∧
    (∀ l1 l2 : List Nat, r ∉ l1 → handleDeregister (l1 ++ r :: l2) r = l1 ++ l2) ∧
    (∀ l : List Nat, l.count r ≤ 1 →
      handleDeregister (handleDeregister l r) r = handleDeregister l r) := by
  refine ⟨?_, ?_, ?_⟩
  · intro l h
    rw [handleDeregisterEqErase, List.erase_of_not_mem h]
  · intro l1 l2 h
    rw [handleDeregisterEqErase, List.erase_append_right _ (by simpa using h),
      List.erase_cons_head]
  · intro l h
    rw [handleDeregisterEqErase, handleDeregisterEqErase]
    have hcount : (l.erase r).count r = l.count r - 1 := List.count_erase_self r l
    have hnm : r ∉ l.erase r := by
      rw [← List.count_eq_zero]
      omega
    exact List.erase_of_not_mem hnm

/-- Witness for handleDeregisterRemovalSemantics: removal of an absent
reference is a no-op, removal deletes the first occurrence, and a second call
after a single registration is a no-op. -/
theorem handleDeregisterRemovalSemanticsWitness :
    handleDeregister [1, 2] 5 = [1, 2] ∧
    handleDeregister [1, 5, 2] 5 = [1, 2] ∧
    handleDeregister (handleDeregister [1, 5, 2] 5) 5 = handleDeregister [1, 5, 2] 5 :=
  ⟨(handleDeregisterRemovalSemantics 5).1 [1, 2] (by decide),
   (handleDeregisterRemovalSemantics 5).2.1 [1] [2] (by decide),
   (handleDeregisterRemovalSemantics 5).2.2 [1, 5, 2] (by decide)⟩

/-- C1 counterexample: with a first error interceptor that rewrites the
message and a second that throws, the source returns the original record,
discarding the first interceptor's transformation, while the specification
version of the chain keeps it; the two disagree on this input. -/
theorem applyErrorInterceptorsAbandonsChain :
    applyErrorInterceptors true
      [fun e => .ok { e with message := "transformed" }, fun _ => .error "interceptor threw"]
      ⟨"original", none, none⟩ = ⟨"original", none, none⟩ ∧
    specApplyErrorInterceptors
      [fun e => .ok { e with message := "transformed" }, fun _ => .error "interceptor threw"]
      ⟨"original", none, none⟩ = ⟨"transformed", none, none⟩ ∧
    (⟨"original", none, none⟩ : FetchError) ≠ ⟨"transformed", none, none⟩ := by
  refine ⟨rfl, rfl, by decide⟩

/-- The loop of applyErrorInterceptors computes the sequential fold of the
chain when every interceptor succeeds, and the untouched original record as
soon as any interceptor fails. -/
theorem applyErrorInterceptorsGoEqChainFold (original : FetchError) :
    ∀ (chain : List ErrorInterceptorFn) (m : FetchError),
      applyErrorInterceptorsGo original chain m =
        (match chainFold chain m with
         | .ok res => res
         | .error _ => original) := by
  intro chain
  induction chain with
  | nil => intro m; rfl
  | cons f rest ih =>
    intro m
    simp only [applyErrorInterceptorsGo, chainFold]
    cases hf : f m with
    | ok m2 => exact ih m2
    | error s => rfl

/-- C1 (amended): when interceptors are enabled, applyErrorInterceptors
returns the last interceptor's transformation when every error interceptor
in the chain succeeds, and abandons the chain and returns the original error
record unchanged as soon as any interceptor fails; with no interceptor
registered, or with interceptors disabled, it returns the original error. -/
theorem applyErrorInterceptorsCharacterization (enabled : Bool)
    (chain : List ErrorInterceptorFn) (error : FetchError) :
    applyErrorInterceptors enabled chain error =
      (if enabled then
        (match chainFold chain error with
         | .ok m => m
         | .error _ => error)
      else error) := by
  cases enabled with
  | false => rfl
  | true =>
    simp only [applyErrorInterceptors, if_true]
    exact applyErrorInterceptorsGoEqChainFold error chain error

/-- C5: with jitter disabled, calculateRetryDelay equals
min(baseDelay * backoffFactor ^ attempt, maxDelay); for every configuration
with non-negative baseDelay and maxDelay and a backoff factor above 1, and
every jitter draw in the interval from 0 inclusive to 1 exclusive, the
returned delay is never negative and never exceeds maxDelay. -/
theorem calculateRetryDelayBounds (cfg : RetryConfig) (attempt : Nat) (rand : ℚ)
    (hb : 0 ≤ cfg.baseDelay) (hm : 0 ≤ cfg.maxDelay) (hf : 1 < cfg.backoffFactor)
    (hr0 : 0 ≤ rand) (_hr1 : rand < 1) :
    (cfg.jitter = false →
      calculateRetryDelay cfg attempt rand =
        min (cfg.baseDelay * cfg.backoffFactor ^ attempt) cfg.maxDelay) ∧
    0 ≤ calculateRetryDelay cfg attempt rand ∧
    calculateRetryDelay cfg attempt rand ≤ cfg.maxDelay := by
  have hd : 0 ≤ cfg.baseDelay * cfg.backoffFactor ^ attempt :=
    mul_nonneg hb (pow_nonneg (by linarith) attempt)
  refine ⟨fun hj => by simp [calculateRetryDelay, hj], ?_, ?_⟩
  · unfold calculateRetryDelay
    cases hj : cfg.jitter with
    | false => simpa using le_min hd hm
    | true =>
      simp only [if_true]
      refine le_min ?_ hm
      nlinarith [mul_nonneg hd hr0]
  · unfold calculateRetryDelay
    cases hj : cfg.jitter <;> simp [min_le_right]

/-- Witness for calculateRetryDelayBounds at the FetchClient default retry
configuration (baseDelay 1000, maxDelay 30000, backoffFactor 2, jitter on),
attempt 3 and jitter draw 1/4. -/
theorem calculateRetryDelayBoundsWitness :
    (({ maxRetries := 3, baseDelay := 1000, maxDelay := 30000, backoffFactor := 2,
        jitter := true, retryCondition := none } : RetryConfig).jitter = false →
      calculateRetryDelay
        { maxRetries := 3, baseDelay := 1000, maxDelay := 30000, backoffFactor := 2,
          jitter := true, retryCondition := none } 3 (1/4) =
        min ((1000 : ℚ) * 2 ^ 3) 30000) ∧
    0 ≤ calculateRetryDelay
      { maxRetries := 3, baseDelay := 1000, maxDelay := 30000, backoffFactor := 2,
        jitter := true, retryCondition := none } 3 (1/4) ∧
    calculateRetryDelay
      { maxRetries := 3, baseDelay := 1000, maxDelay := 30000, backoffFactor := 2,
        jitter := true, retryCondition := none } 3 (1/4) ≤ 30000 :=
  calculateRetryDelayBounds
    { maxRetries := 3, baseDelay := 1000, maxDelay := 30000, backoffFactor := 2,
      jitter := true, retryCondition := none } 3 (1/4)
    (by norm_num) (by norm_num) (by norm_num) (by norm_num) (by norm_num)

/-- A true shouldRetry implies the attempt index is below maxRetries. -/
theorem shouldRetryLtMax {cfg : RetryConfig} {e : FetchError} {a : Nat}
    (h : shouldRetry cfg e a = true) : a < cfg.maxRetries := by
  simp only [shouldRetry, Bool.and_eq_true, decide_eq_true_eq] at h
  exact h.1.1

/-- Invariant of the executeWithRetry loop, proved by induction on the
remaining fuel: the number of calls is between 1 and the fuel; the sleeps
are exactly the calculated delays of the retried attempts in order; every
attempt before the last failed with shouldRetry true; and the run settles
with the outcome of its last attempt. -/
theorem runRetryLoopSpec {T : Type} (cfg : RetryConfig) (ops : Nat → Except FetchError T)
    (rands : Nat → ℚ) :
    ∀ (fuel attempt : Nat) (last : Option FetchError),
      attempt + fuel = cfg.maxRetries + 1 → 1 ≤ fuel →
      1 ≤ (runRetryLoop cfg ops rands attempt fuel last).calls ∧
      (runRetryLoop cfg ops rands attempt fuel last).calls ≤ fuel ∧
      (runRetryLoop cfg ops rands attempt fuel last).sleeps =
        (List.range ((runRetryLoop cfg ops rands attempt fuel last).calls - 1)).map
          (fun j => calculateRetryDelay cfg (attempt + j) (rands (attempt + j))) ∧
      (∀ j, j + 1 < (runRetryLoop cfg ops rands attempt fuel last).calls →
        ∃ e, ops (attempt + j) = .error e ∧ shouldRetry cfg e (attempt + j) = true) ∧
      (∀ v, ops (attempt + ((runRetryLoop cfg ops rands attempt fuel last).calls - 1)) = .ok v →
        (runRetryLoop cfg ops rands attempt fuel last).result = .ok v) ∧
      (∀ e, ops (attempt + ((runRetryLoop cfg ops rands attempt fuel last).calls - 1)) = .error e →
        (runRetryLoop cfg ops rands attempt fuel last).result = .error e) := by
  intro fuel
  induction fuel with
  | zero =>
    intro attempt last _ h1
    exact absurd h1 (by omega)
  | succ n ih =>
    intro attempt last hsum _
    cases hop : ops attempt with
    | ok v =>
      have hrun : runRetryLoop cfg ops rands attempt (n+1) last = ⟨.ok v, 1, []⟩ := by
        simp [runRetryLoop, hop]
      rw [hrun]
      dsimp only
      refine ⟨by omega, by omega, by simp, fun j hj => by omega, ?_, ?_⟩
      · intro v' hv'
        simp only [Nat.add_zero, Nat.sub_self] at hv'
        rw [hop] at hv'
        cases hv'
        rfl
      · intro e he
        simp only [Nat.add_zero, Nat.sub_self] at he
        rw [hop] at he
        cases he
    | error e =>
      by_cases hsr : shouldRetry cfg e attempt = true
      · have hlt : attempt < cfg.maxRetries := shouldRetryLtMax hsr
        have hn : 1 ≤ n := by omega
        have hsum2 : (attempt + 1) + n = cfg.maxRetries + 1 := by omega
        obtain ⟨ih1, ih2, ih3, ih4, ih5, ih6⟩ := ih (attempt + 1) (some e) hsum2 hn
        have hrun : runRetryLoop cfg ops rands attempt (n+1) last =
            ⟨(runRetryLoop cfg ops rands (attempt+1) n (some e)).result,
             (runRetryLoop cfg ops rands (attempt+1) n (some e)).calls + 1,
             calculateRetryDelay cfg attempt (rands attempt) ::
               (runRetryLoop cfg ops rands (attempt+1) n (some e)).sleeps⟩ := by
          simp [runRetryLoop, hop, hsr]
        rw [hrun]
        dsimp only
        refine ⟨by omega, by omega, ?_, ?_, ?_, ?_⟩
        · obtain ⟨m, hm⟩ : ∃ m, (runRetryLoop cfg ops rands (attempt+1) n (some e)).calls = m + 1 :=
            ⟨(runRetryLoop cfg ops rands (attempt+1) n (some e)).calls - 1, by omega⟩
          simp only [hm] at ih3 ⊢
          simp only [Nat.add_sub_cancel] at ih3 ⊢
          rw [List.range_succ_eq_map, List.map_cons, List.map_map]
          refine congrArg₂ (· :: ·) (by simp) ?_
          rw [ih3]
          refine List.map_congr_left ?_
          intro j _
          have harg : (attempt + 1) + j = attempt + Nat.succ j := by omega
          simp only [Function.comp_apply, harg]
        · intro j hj
          match j with
          | 0 =>
            exact ⟨e, by simpa using hop, by simpa using hsr⟩
          | Nat.succ j' =>
            obtain ⟨e', he', hsr'⟩ := ih4 j' (by omega)
            have harg : attempt + (j' + 1) = (attempt + 1) + j' := by omega
            exact ⟨e', by rw [harg]; exact he', by rw [harg]; exact hsr'⟩
        · intro v hv
          have harg : attempt + ((runRetryLoop cfg ops rands (attempt+1) n (some e)).calls + 1 - 1)
              = (attempt + 1) + ((runRetryLoop cfg ops rands (attempt+1) n (some e)).calls - 1) := by
            omega
          rw [harg] at hv
          exact ih5 v hv
        · intro e' he'
          have harg : attempt + ((runRetryLoop cfg ops rands (attempt+1) n (some e)).calls + 1 - 1)
              = (attempt + 1) + ((runRetryLoop cfg ops rands (attempt+1) n (some e)).calls - 1) := by
            omega
          rw [harg] at he'
          exact ih6 e' he'
      · have hrun : runRetryLoop cfg ops rands attempt (n+1) last = ⟨.error e, 1, []⟩ := by
          simp [runRetryLoop, hop, hsr]
        rw [hrun]
        dsimp only
        refine ⟨by omega, by omega, by simp, fun j hj => by omega, ?_, ?_⟩
        · intro v hv
          simp only [Nat.add_zero, Nat.sub_self] at hv
          rw [hop] at hv
          cases hv
        · intro e' he'
          simp only [Nat.add_zero, Nat.sub_self] at he'
          rw [hop] at he'
          cases he'
          rfl

/-- C4: executeWithRetry invokes the operation at most maxRetries + 1 times
and at least once (attempt 0 is always made); after each failed attempt that
shouldRetry approves, it sleeps for calculateRetryDelay of that attempt
index and retries, and every attempt before the last is such an approved
failure; otherwise it stops at that attempt and the run settles with the
last attempt's outcome, surfacing its error to the caller. -/
theorem executeWithRetrySpec {T : Type} (cfg : RetryConfig)
    (ops : Nat → Except FetchError T) (rands : Nat → ℚ) :
    1 ≤ (executeWithRetry cfg ops rands).calls ∧
    (executeWithRetry cfg ops rands).calls ≤ cfg.maxRetries + 1 ∧
    (executeWithRetry cfg ops rands).sleeps =
      (List.range ((executeWithRetry cfg ops rands).calls - 1)).map
        (fun i => calculateRetryDelay cfg i (rands i)) ∧
    (∀ i, i + 1 < (executeWithRetry cfg ops rands).calls →
      ∃ e, ops i = .error e ∧ shouldRetry cfg e i = true) ∧
    (∀ v, ops ((executeWithRetry cfg ops rands).calls - 1) = .ok v →
      (executeWithRetry cfg ops rands).result = .ok v) ∧
    (∀ e, ops ((executeWithRetry cfg ops rands).calls - 1) = .error e →
      (executeWithRetry cfg ops rands).result = .error e) := by
  have h := runRetryLoopSpec cfg ops rands (cfg.maxRetries + 1) 0 none (by omega) (by omega)
  simpa [executeWithRetry] using h

/-- A true clientShouldRetry implies the attempt index is below the
per-request retries value. -/
theorem clientShouldRetryLt {cfg : RetryConfig} {retries : Nat} {e : FetchError}
    {a : Nat} (h : clientShouldRetry cfg retries e a = true) : a < retries := by
  simp only [clientShouldRetry, Bool.and_eq_true, decide_eq_true_eq] at h
  exact h.1.1

/-- Invariant of the executeRequest attempt loop: the loop never finishes
with lastError unset, and it never emits an error-interceptor event. -/
theorem execRequestAttemptsSpec {R : Type} (cfg : RetryConfig) (retries : Nat)
    (ops : Nat → Except FetchError R) (respChain : R → Except FetchError R)
    (rands : Nat → ℚ) :
    ∀ (fuel attempt : Nat) (last : Option FetchError),
      attempt + fuel = retries + 1 → 1 ≤ fuel →
      (execRequestAttempts cfg retries ops respChain rands attempt fuel last).1 ≠
        .error none ∧
      ReqEvent.errorInterceptorsRan ∉
        (execRequestAttempts cfg retries ops respChain rands attempt fuel last).2 := by
  intro fuel
  induction fuel with
  | zero =>
    intro attempt last _ h1
    exact absurd h1 (by omega)
  | succ n ih =>
    intro attempt last hsum _
    cases hop : ops attempt with
    | ok v =>
      cases hrc : respChain v with
      | ok v2 =>
        have hrun : execRequestAttempts cfg retries ops respChain rands attempt (n+1) last =
            (.ok v2, [.attemptMade attempt, .responseInterceptorsRan]) := by
          simp [execRequestAttempts, hop, hrc]
        rw [hrun]
        exact ⟨by simp, by simp⟩
      | error e =>
        by_cases hsr : clientShouldRetry cfg retries e attempt = true
        · have hlt : attempt < retries := clientShouldRetryLt hsr
          have hn : 1 ≤ n := by omega
          obtain ⟨ih1, ih2⟩ := ih (attempt + 1) (some e) (by omega) hn
          have hrun : execRequestAttempts cfg retries ops respChain rands attempt (n+1) last =
              ((execRequestAttempts cfg retries ops respChain rands (attempt+1) n (some e)).1,
               .attemptMade attempt :: .responseInterceptorsRan ::
                 .slept (calculateRetryDelay cfg attempt (rands attempt)) ::
                 (execRequestAttempts cfg retries ops respChain rands (attempt+1) n (some e)).2) := by
            simp [execRequestAttempts, hop, hrc, hsr]
          rw [hrun]
          exact ⟨ih1, by simp [ih2]⟩
        · have hrun : execRequestAttempts cfg retries ops respChain rands attempt (n+1) last =
              (.error (some e), [.attemptMade attempt, .responseInterceptorsRan]) := by
            simp [execRequestAttempts, hop, hrc, hsr]
          rw [hrun]
          exact ⟨by simp, by simp⟩
    | error e =>
      by_cases hsr : clientShouldRetry cfg retries e attempt = true
      · have hlt : attempt < retries := clientShouldRetryLt hsr
        have hn : 1 ≤ n := by omega
        obtain ⟨ih1, ih2⟩ := ih (attempt + 1) (some e) (by omega) hn
        have hrun : execRequestAttempts cfg retries ops respChain rands attempt (n+1) last =
            ((execRequestAttempts cfg retries ops respChain rands (attempt+1) n (some e)).1,
             .attemptMade attempt ::
               .slept (calculateRetryDelay cfg attempt (rands attempt)) ::
               (execRequestAttempts cfg retries ops respChain rands (attempt+1) n (some e)).2) := by
          simp [execRequestAttempts, hop, hsr]
        rw [hrun]
        exact ⟨ih1, by simp [ih2]⟩
      · have hrun : execRequestAttempts cfg retries ops respChain rands attempt (n+1) last =
            (.error (some e), [.attemptMade attempt]) := by
          simp [execRequestAttempts, hop, hsr]
        rw [hrun]
        exact ⟨by simp, by simp⟩

/-- C6: for every call executed through the retry loop, on an ultimately
successful call no error-interceptor invocation occurs, and on an ultimately
failed call the error-interceptor chain is invoked exactly once, as the very
last event: after all attempts, sleeps and response-interceptor runs, never
between attempts. -/
theorem executeRequestErrorInterceptorsOnce {R : Type} (enabled : Bool)
    (errChain : List ErrorInterceptorFn) (cfg : RetryConfig) (retries : Nat)
    (ops : Nat → Except FetchError R) (respChain : R → Except FetchError R)
    (rands : Nat → ℚ) :
    (∀ v, (executeRequest enabled errChain cfg retries ops respChain rands).1 = .ok v →
      (executeRequest enabled errChain cfg retries ops respChain rands).2.count
        ReqEvent.errorInterceptorsRan = 0) ∧
    (∀ e, (executeRequest enabled errChain cfg retries ops respChain rands).1 = .error e →
      ∃ evs, (executeRequest enabled errChain cfg retries ops respChain rands).2 =
          evs ++ [ReqEvent.errorInterceptorsRan] ∧
        evs.count ReqEvent.errorInterceptorsRan = 0) := by
  obtain ⟨hne, hnm⟩ := execRequestAttemptsSpec cfg retries ops respChain rands
    (retries + 1) 0 none (by omega) (by omega)
  have hcount : (execRequestAttempts cfg retries ops respChain rands 0 (retries+1) none).2.count
      ReqEvent.errorInterceptorsRan = 0 := List.count_eq_zero.mpr hnm
  simp only [executeRequest]
  cases hres : (execRequestAttempts cfg retries ops respChain rands 0 (retries+1) none).1 with
  | ok v =>
    refine ⟨fun v' _ => hcount, fun e he => ?_⟩
    simp at he
  | error oe =>
    cases oe with
    | none => exact absurd hres hne
    | some e =>
      refine ⟨fun v hv => ?_, fun e' _ => ?_⟩
      · simp at hv
      · exact ⟨(execRequestAttempts cfg retries ops respChain rands 0 (retries+1) none).2,
          rfl, hcount⟩

/-- C7 counterexample: in a state with no refresh token but with a refresh
already in flight (isRefreshing true), handleUnauthorized neither clears the
stored credentials nor fires the token-expired callback, against the claim
that every no-refresh-token state is cleared with exactly one callback. -/
theorem handleUnauthorizedNotAlwaysClearing :
    (handleUnauthorized ⟨some "https://api.example.com/refresh", none, true, true⟩
        ⟨true, some ⟨"acc", none, none, none, none⟩, none, true, none, none⟩
        (.ok none) 0).2.count AuthEvent.tokenExpiredCallback = 0 ∧
    (handleUnauthorized ⟨some "https://api.example.com/refresh", none, true, true⟩
        ⟨true, some ⟨"acc", none, none, none, none⟩, none, true, none, none⟩
        (.ok none) 0).1.tokens = some ⟨"acc", none, none, none, none⟩ := by
  decide

/-- C7 (amended): when no refresh is already in flight (isRefreshing false
and no stored refresh promise): if no refresh token is stored,
handleUnauthorized clears the credentials, fires the token-expired callback
exactly once and never calls the refresh endpoint; if a refresh token exists
and the access token is expired, it calls the refresh endpoint exactly once,
and when that refresh fails it clears the credentials and fires the expired
callback. -/
theorem handleUnauthorizedSpec (cfg : AuthConfigM) (s : AuthStateM)
    (resp : RefreshResponse) (now : Nat)
    (href : s.isRefreshing = false) (hp : s.refreshPromise = none)
    (hcb : cfg.hasOnTokenExpired = true) (hurl : cfg.tokenRefreshUrl.isSome = true) :
    ((s.tokens.bind fun t => t.refreshToken) = none →
      (handleUnauthorized cfg s resp now).1.tokens = none ∧
      (handleUnauthorized cfg s resp now).1.isAuthenticated = false ∧
      (handleUnauthorized cfg s resp now).2.count AuthEvent.tokenExpiredCallback = 1 ∧
      (handleUnauthorized cfg s resp now).2.count AuthEvent.refreshEndpointCalled = 0) ∧
    ((s.tokens.bind fun t => t.refreshToken).isSome = true →
      isTokenExpired cfg s now none = true →
      (handleUnauthorized cfg s resp now).2.count AuthEvent.refreshEndpointCalled = 1 ∧
      (refreshFails resp = true →
        (handleUnauthorized cfg s resp now).1.tokens = none ∧
        (handleUnauthorized cfg s resp now).1.isAuthenticated = false ∧
        1 ≤ (handleUnauthorized cfg s resp now).2.count AuthEvent.tokenExpiredCallback)) := by
  constructor
  · intro h1
    have hrun : handleUnauthorized cfg s resp now =
        ({ isAuthenticated := false, tokens := none, user := none, isRefreshing := false,
           lastRefresh := s.lastRefresh, refreshPromise := s.refreshPromise },
         [AuthEvent.tokenExpiredCallback, AuthEvent.storageRemoved]) := by
      simp [handleUnauthorized, href, h1, hcb, clearTokensRun]
    rw [hrun]
    exact ⟨rfl, rfl, by simp, by simp⟩
  · intro h2 hexp
    obtain ⟨url, hu⟩ := Option.isSome_iff_exists.mp hurl
    obtain ⟨rt, hrt⟩ := Option.isSome_iff_exists.mp h2
    cases resp with
    | error u =>
      have hrun : handleUnauthorized cfg s (.error u) now =
          ({ isAuthenticated := false, tokens := none, user := none, isRefreshing := false,
             lastRefresh := s.lastRefresh, refreshPromise := none },
           [AuthEvent.refreshEndpointCalled, AuthEvent.tokenExpiredCallback,
            AuthEvent.storageRemoved, AuthEvent.tokenExpiredCallback]) := by
        simp [handleUnauthorized, href, hexp, hrt, refreshTokens, hu, hp,
          performTokenRefresh, clearTokensRun, hcb]
      rw [hrun]
      exact ⟨by simp, fun _ => ⟨rfl, rfl, by simp⟩⟩
    | ok o =>
      cases o with
      | none =>
        have hrun : handleUnauthorized cfg s (.ok none) now =
            ({ isAuthenticated := false, tokens := none, user := none, isRefreshing := false,
               lastRefresh := s.lastRefresh, refreshPromise := none },
             [AuthEvent.refreshEndpointCalled, AuthEvent.tokenExpiredCallback,
              AuthEvent.storageRemoved, AuthEvent.tokenExpiredCallback]) := by
          simp [handleUnauthorized, href, hexp, hrt, refreshTokens, hu, hp,
            performTokenRefresh, clearTokensRun, hcb]
        rw [hrun]
        exact ⟨by simp, fun _ => ⟨rfl, rfl, by simp⟩⟩
      | some newTokens =>
        by_cases hr : cfg.hasOnTokenRefresh
        · have hrun : handleUnauthorized cfg s (.ok (some newTokens)) now =
              ({ isAuthenticated := true, tokens := some (withComputedExpiry newTokens now),
                 user := s.user, isRefreshing := false, lastRefresh := some now,
                 refreshPromise := none },
               [AuthEvent.refreshEndpointCalled, AuthEvent.storageSaved,
                AuthEvent.tokenRefreshCallback]) := by
            simp [handleUnauthorized, href, hexp, hrt, refreshTokens, hu, hp,
              performTokenRefresh, setTokensRun, hr]
          rw [hrun]
          exact ⟨by simp, fun h => by simp [refreshFails] at h⟩
        · have hrun : handleUnauthorized cfg s (.ok (some newTokens)) now =
              ({ isAuthenticated := true, tokens := some (withComputedExpiry newTokens now),
                 user := s.user, isRefreshing := false, lastRefresh := some now,
                 refreshPromise := none },
               [AuthEvent.refreshEndpointCalled, AuthEvent.storageSaved]) := by
            simp [handleUnauthorized, href, hexp, hrt, refreshTokens, hu, hp,
              performTokenRefresh, setTokensRun, hr]
          rw [hrun]
          exact ⟨by simp, fun h => by simp [refreshFails] at h⟩

/-- Witness for handleUnauthorizedSpec on a concrete idle state holding an
expired access token with a refresh token, against a rejecting refresh
endpoint. -/
theorem handleUnauthorizedSpecWitness :
    (((⟨true, some ⟨"acc", some "ref", none, some 0, none⟩, none, false, none, none⟩ :
        AuthStateM).tokens.bind fun t => t.refreshToken) = none →
      (handleUnauthorized ⟨some "https://api.example.com/refresh", none, true, true⟩
        ⟨true, some ⟨"acc", some "ref", none, some 0, none⟩, none, false, none, none⟩
        (.error ()) 1000000).1.tokens = none ∧
      (handleUnauthorized ⟨some "https://api.example.com/refresh", none, true, true⟩
        ⟨true, some ⟨"acc", some "ref", none, some 0, none⟩, none, false, none, none⟩
        (.error ()) 1000000).1.isAuthenticated = false ∧
      (handleUnauthorized ⟨some "https://api.example.com/refresh", none, true, true⟩
        ⟨true, some ⟨"acc", some "ref", none, some 0, none⟩, none, false, none, none⟩
        (.error ()) 1000000).2.count AuthEvent.tokenExpiredCallback = 1 ∧
      (handleUnauthorized ⟨some "https://api.example.com/refresh", none, true, true⟩
        ⟨true, some ⟨"acc", some "ref", none, some 0, none⟩, none, false, none, none⟩
        (.error ()) 1000000).2.count AuthEvent.refreshEndpointCalled = 0) ∧
    (((⟨true, some ⟨"acc", some "ref", none, some 0, none⟩, none, false, none, none⟩ :
        AuthStateM).tokens.bind fun t => t.refreshToken).isSome = true →
      isTokenExpired ⟨some "https://api.example.com/refresh", none, true, true⟩
        ⟨true, some ⟨"acc", some "ref", none, some 0, none⟩, none, false, none, none⟩
        1000000 none = true →
      (handleUnauthorized ⟨some "https://api.example.com/refresh", none, true, true⟩
        ⟨true, some ⟨"acc", some "ref", none, some 0, none⟩, none, false, none, none⟩
        (.error ()) 1000000).2.count AuthEvent.refreshEndpointCalled = 1 ∧
      (refreshFails (.error ()) = true →
        (handleUnauthorized ⟨some "https://api.example.com/refresh", none, true, true⟩
          ⟨true, some ⟨"acc", some "ref", none, some 0, none⟩, none, false, none, none⟩
          (.error ()) 1000000).1.tokens = none ∧
        (handleUnauthorized ⟨some "https://api.example.com/refresh", none, true, true⟩
          ⟨true, some ⟨"acc", some "ref", none, some 0, none⟩, none, false, none, none⟩
          (.error ()) 1000000).1.isAuthenticated = false ∧
        1 ≤ (handleUnauthorized ⟨some "https://api.example.com/refresh", none, true, true⟩
          ⟨true, some ⟨"acc", some "ref", none, some 0, none⟩, none, false, none, none⟩
          (.error ()) 1000000).2.count AuthEvent.tokenExpiredCallback)) :=
  handleUnauthorizedSpec
    ⟨some "https://api.example.com/refresh", none, true, true⟩
    ⟨true, some ⟨"acc", some "ref", none, some 0, none⟩, none, false, none, none⟩
    (.error ()) 1000000 rfl rfl rfl rfl

/-- C2: a refreshTokens call made while a refresh is already in flight
returns the existing in-flight promise with no state change and no endpoint
call, in both the run-to-completion model and the event-loop entry model;
and two concurrent callers starting from an idle state share one promise
(the second joins the first caller's), trigger exactly one refresh-endpoint
call, and therefore receive the same outcome, after which the in-flight
marker is cleared. -/
theorem refreshTokensSingleFlight (cfg : AuthConfigM) (s : AuthStateM)
    (resp : RefreshResponse) (now : Nat) (q pid : Nat)
    (hurl : cfg.tokenRefreshUrl.isSome = true) :
    (s.refreshPromise = some q →
      refreshTokens cfg s resp now = (.joined q, s, []) ∧
      refreshTokensEntry cfg s pid = (.joined q, s, [])) ∧
    (s.refreshPromise = none →
      (s.tokens.bind fun t => t.refreshToken).isSome = true →
      joinsSamePromise (twoConcurrentRefresh cfg s resp now).1
        (twoConcurrentRefresh cfg s resp now).2.1 = true ∧
      (twoConcurrentRefresh cfg s resp now).2.2.2.2.count
        AuthEvent.refreshEndpointCalled = 1 ∧
      (twoConcurrentRefresh cfg s resp now).2.2.2.1.refreshPromise = none ∧
      (twoConcurrentRefresh cfg s resp now).2.2.2.1.isRefreshing = false) := by
  obtain ⟨url, hu⟩ := Option.isSome_iff_exists.mp hurl
  constructor
  · intro h
    exact ⟨by simp [refreshTokens, hu, h], by simp [refreshTokensEntry, hu, h]⟩
  · intro h1 h2
    obtain ⟨rt, hrt⟩ := Option.isSome_iff_exists.mp h2
    have ha : refreshTokensEntry cfg s 0 =
        (.started 0, { s with refreshPromise := some 0, isRefreshing := true },
         [AuthEvent.refreshEndpointCalled]) := by
      simp [refreshTokensEntry, hu, h1, hrt]
    have hb : refreshTokensEntry cfg
        { s with refreshPromise := some 0, isRefreshing := true } 1 =
        (.joined 0, { s with refreshPromise := some 0, isRefreshing := true }, []) := by
      simp [refreshTokensEntry, hu]
    simp only [twoConcurrentRefresh, ha, hb]
    rcases resp with u | o
    · by_cases hcb : cfg.hasOnTokenExpired <;>
        simp [refreshCompletion, clearTokensRun, hcb, joinsSamePromise]
    · cases o with
      | none =>
        by_cases hcb : cfg.hasOnTokenExpired <;>
          simp [refreshCompletion, clearTokensRun, hcb, joinsSamePromise]
      | some t =>
        by_cases hcr : cfg.hasOnTokenRefresh <;>
          simp [refreshCompletion, setTokensRun, hcr, joinsSamePromise]

/-- Witness for refreshTokensSingleFlight on a concrete idle state with a
refresh token and a succeeding refresh endpoint. -/
theorem refreshTokensSingleFlightWitness :
    ((⟨true, some ⟨"acc", some "ref", none, some 0, none⟩, none, false, none, none⟩ :
        AuthStateM).refreshPromise = some 0 →
      refreshTokens ⟨some "https://api.example.com/refresh", none, true, true⟩
        ⟨true, some ⟨"acc", some "ref", none, some 0, none⟩, none, false, none, none⟩
        (.ok (some ⟨"newacc", some "newref", some 3600, none, some "Bearer"⟩)) 5 =
        (.joined 0,
         ⟨true, some ⟨"acc", some "ref", none, some 0, none⟩, none, false, none, none⟩, []) ∧
      refreshTokensEntry ⟨some "https://api.example.com/refresh", none, true, true⟩
        ⟨true, some ⟨"acc", some "ref", none, some 0, none⟩, none, false, none, none⟩ 1 =
        (.joined 0,
         ⟨true, some ⟨"acc", some "ref", none, some 0, none⟩, none, false, none, none⟩, [])) ∧
    ((⟨true, some ⟨"acc", some "ref", none, some 0, none⟩, none, false, none, none⟩ :
        AuthStateM).refreshPromise = none →
      ((⟨true, some ⟨"acc", some "ref", none, some 0, none⟩, none, false, none, none⟩ :
        AuthStateM).tokens.bind fun t => t.refreshToken).isSome = true →
      joinsSamePromise
        (twoConcurrentRefresh ⟨some "https://api.example.com/refresh", none, true, true⟩
          ⟨true, some ⟨"acc", some "ref", none, some 0, none⟩, none, false, none, none⟩
          (.ok (some ⟨"newacc", some "newref", some 3600, none, some "Bearer"⟩)) 5).1
        (twoConcurrentRefresh ⟨some "https://api.example.com/refresh", none, true, true⟩
          ⟨true, some ⟨"acc", some "ref", none, some 0, none⟩, none, false, none, none⟩
          (.ok (some ⟨"newacc", some "newref", some 3600, none, some "Bearer"⟩)) 5).2.1 = true ∧
      (twoConcurrentRefresh ⟨some "https://api.example.com/refresh", none, true, true⟩
        ⟨true, some ⟨"acc", some "ref", none, some 0, none⟩, none, false, none, none⟩
        (.ok (some ⟨"newacc", some "newref", some 3600, none, some "Bearer"⟩)) 5).2.2.2.2.count
          AuthEvent.refreshEndpointCalled = 1 ∧
      (twoConcurrentRefresh ⟨some "https://api.example.com/refresh", none, true, true⟩
        ⟨true, some ⟨"acc", some "ref", none, some 0, none⟩, none, false, none, none⟩
        (.ok (some ⟨"newacc", some "newref", some 3600, none, some "Bearer"⟩)) 5).2.2.2.1.refreshPromise
          = none ∧
      (twoConcurrentRefresh ⟨some "https://api.example.com/refresh", none, true, true⟩
        ⟨true, some ⟨"acc", some "ref", none, some 0, none⟩, none, false, none, none⟩
        (.ok (some ⟨"newacc", some "newref", some 3600, none, some "Bearer"⟩)) 5).2.2.2.1.isRefreshing
          = false) :=
  refreshTokensSingleFlight
    ⟨some "https://api.example.com/refresh", none, true, true⟩
    ⟨true, some ⟨"acc", some "ref", none, some 0, none⟩, none, false, none, none⟩
    (.ok (some ⟨"newacc", some "newref", some 3600, none, some "Bearer"⟩)) 5 0 1 rfl

/-- Witness for executeWithRetrySpec on a concrete configuration with
maxRetries 2 and an operation failing with a 503 on attempt 0 and
succeeding on attempt 1. -/
theorem executeWithRetrySpecWitness :
    1 ≤ (executeWithRetry
      { maxRetries := 2, baseDelay := 100, maxDelay := 30000, backoffFactor := 2,
        jitter := false, retryCondition := some defaultRetryCondition }
      (fun i => if i = 0 then .error ⟨"HTTP 503", some 503, some "Service Unavailable"⟩
        else .ok 42) (fun _ => 0)).calls ∧
    (executeWithRetry
      { maxRetries := 2, baseDelay := 100, maxDelay := 30000, backoffFactor := 2,
        jitter := false, retryCondition := some defaultRetryCondition }
      (fun i => if i = 0 then .error ⟨"HTTP 503", some 503, some "Service Unavailable"⟩
        else .ok 42) (fun _ => 0)).calls ≤
      ({ maxRetries := 2, baseDelay := 100, maxDelay := 30000, backoffFactor := 2,
         jitter := false, retryCondition := some defaultRetryCondition } : RetryConfig).maxRetries + 1 ∧
    (executeWithRetry
      { maxRetries := 2, baseDelay := 100, maxDelay := 30000, backoffFactor := 2,
        jitter := false, retryCondition := some defaultRetryCondition }
      (fun i => if i = 0 then .error ⟨"HTTP 503", some 503, some "Service Unavailable"⟩
        else .ok 42) (fun _ => 0)).sleeps =
      (List.range ((executeWithRetry
        { maxRetries := 2, baseDelay := 100, maxDelay := 30000, backoffFactor := 2,
          jitter := false, retryCondition := some defaultRetryCondition }
        (fun i => if i = 0 then .error ⟨"HTTP 503", some 503, some "Service Unavailable"⟩
          else .ok 42) (fun _ => 0)).calls - 1)).map
        (fun i => calculateRetryDelay
          { maxRetries := 2, baseDelay := 100, maxDelay := 30000, backoffFactor := 2,
            jitter := false, retryCondition := some defaultRetryCondition } i 0) ∧
    (∀ i, i + 1 < (executeWithRetry
      { maxRetries := 2, baseDelay := 100, maxDelay := 30000, backoffFactor := 2,
        jitter := false, retryCondition := some defaultRetryCondition }
      (fun i => if i = 0 then .error ⟨"HTTP 503", some 503, some "Service Unavailable"⟩
        else .ok 42) (fun _ => 0)).calls →
      ∃ e, (if i = 0 then .error ⟨"HTTP 503", some 503, some "Service Unavailable"⟩
          else .ok 42 : Except FetchError Nat) = .error e ∧
        shouldRetry
          { maxRetries := 2, baseDelay := 100, maxDelay := 30000, backoffFactor := 2,
            jitter := false, retryCondition := some defaultRetryCondition } e i = true) ∧
    (∀ v, (if (executeWithRetry
      { maxRetries := 2, baseDelay := 100, maxDelay := 30000, backoffFactor := 2,
        jitter := false, retryCondition := some defaultRetryCondition }
      (fun i => if i = 0 then .error ⟨"HTTP 503", some 503, some "Service Unavailable"⟩
        else .ok 42) (fun _ => 0)).calls - 1 = 0
        then .error ⟨"HTTP 503", some 503, some "Service Unavailable"⟩
        else .ok 42 : Except FetchError Nat) = .ok v →
      (executeWithRetry
        { maxRetries := 2, baseDelay := 100, maxDelay := 30000, backoffFactor := 2,
          jitter := false, retryCondition := some defaultRetryCondition }
        (fun i => if i = 0 then .error ⟨"HTTP 503", some 503, some "Service Unavailable"⟩
          else .ok 42) (fun _ => 0)).result = .ok v) ∧
    (∀ e, (if (executeWithRetry
      { maxRetries := 2, baseDelay := 100, maxDelay := 30000, backoffFactor := 2,
        jitter := false, retryCondition := some defaultRetryCondition }
      (fun i => if i = 0 then .error ⟨"HTTP 503", some 503, some "Service Unavailable"⟩
        else .ok 42) (fun _ => 0)).calls - 1 = 0
        then .error ⟨"HTTP 503", some 503, some "Service Unavailable"⟩
        else .ok 42 : Except FetchError Nat) = .error e →
      (executeWithRetry
        { maxRetries := 2, baseDelay := 100, maxDelay := 30000, backoffFactor := 2,
          jitter := false, retryCondition := some defaultRetryCondition }
        (fun i => if i = 0 then .error ⟨"HTTP 503", some 503, some "Service Unavailable"⟩
          else .ok 42) (fun _ => 0)).result = .error e) :=
  executeWithRetrySpec
    { maxRetries := 2, baseDelay := 100, maxDelay := 30000, backoffFactor := 2,
      jitter := false, retryCondition := some defaultRetryCondition }
    (fun i => if i = 0 then .error ⟨"HTTP 503", some 503, some "Service Unavailable"⟩
      else .ok 42) (fun _ => 0)

/-- Witness for executeRequestErrorInterceptorsOnce on a concrete call with
one retry permitted, an empty error-interceptor chain, and an operation that
always fails with a 500. -/
theorem executeRequestErrorInterceptorsOnceWitness :
    (∀ v, (executeRequest true []
      { maxRetries := 1, baseDelay := 100, maxDelay := 30000, backoffFactor := 2,
        jitter := false, retryCondition := some defaultRetryCondition } 1
      (fun _ => (.error ⟨"HTTP 500", some 500, none⟩ : Except FetchError Nat))
      (fun v => .ok v) (fun _ => 0)).1 = .ok v →
      (executeRequest true []
        { maxRetries := 1, baseDelay := 100, maxDelay := 30000, backoffFactor := 2,
          jitter := false, retryCondition := some defaultRetryCondition } 1
        (fun _ => (.error ⟨"HTTP 500", some 500, none⟩ : Except FetchError Nat))
        (fun v => .ok v) (fun _ => 0)).2.count ReqEvent.errorInterceptorsRan = 0) ∧
    (∀ e, (executeRequest true []
      { maxRetries := 1, baseDelay := 100, maxDelay := 30000, backoffFactor := 2,
        jitter := false, retryCondition := some defaultRetryCondition } 1
      (fun _ => (.error ⟨"HTTP 500", some 500, none⟩ : Except FetchError Nat))
      (fun v => .ok v) (fun _ => 0)).1 = .error e →
      ∃ evs, (executeRequest true []
        { maxRetries := 1, baseDelay := 100, maxDelay := 30000, backoffFactor := 2,
          jitter := false, retryCondition := some defaultRetryCondition } 1
        (fun _ => (.error ⟨"HTTP 500", some 500, none⟩ : Except FetchError Nat))
        (fun v => .ok v) (fun _ => 0)).2 = evs ++ [ReqEvent.errorInterceptorsRan] ∧
        evs.count ReqEvent.errorInterceptorsRan = 0) :=
  executeRequestErrorInterceptorsOnce true []
    { maxRetries := 1, baseDelay := 100, maxDelay := 30000, backoffFactor := 2,
      jitter := false, retryCondition := some defaultRetryCondition } 1
    (fun _ => (.error ⟨"HTTP 500", some 500, none⟩ : Except FetchError Nat))
    (fun v => .ok v) (fun _ => 0)
